import Mathlib

/-!
Verification of the transport/configuration core of the lightyear repository.

The development shallowly embeds three source files:
- src/shared/src/transport/io.rs  (Io, IoConfig, TransportConfig, send/recv/split/from_config)
- src/shared/src/client/config.rs (NetcodeConfig, PacketConfig)
- src/shared/src/server/plugin.rs (PluginConfig, ServerPlugin, build)

Modelling conventions:
- `SocketAddr` is an ip (list of numeric segments) and a port.
- rust `std::io::Error` is modelled as an abstract numeric code `IoError`.
- The global metrics registry (rust crate `metrics`, behind the `metrics`
  feature) is passed as explicit state `Metrics`; `increment_counter!` adds 1,
  `increment_gauge!(_, len as f64)` adds the byte length (exact for these
  magnitudes, so modelled over Nat).
- The boxed trait objects `Box<dyn PacketSender>` / `Box<dyn PacketReceiver>`
  inside `Io` are modelled by type parameters `S`, `R` for the object state,
  with the vtable entry passed explicitly to `Io.send` / `Io.recv` as a step
  function returning the rust result together with the mutated object state.
- The backends `UdpSocket` and `LocalChannel` and the conditioner are outside
  the provided sources; they are modelled from the spec (see the doc comments)
  only as far as `Io::from_config` observes them: a constructor that may fail
  (UDP bind) or not (local channel), a reported local address, and for the
  conditioner a wrapper constructor around an inner receiver.
-/

/-- A socket address: ip segments plus port, mirroring `std::net::SocketAddr`
as far as the claims observe it (`SocketAddr::new(IpAddr::from([127,0,0,1]), 0)`). -/
structure SocketAddr where
  ip : List Nat
  port : Nat
deriving DecidableEq, Repr

/-- Abstract model of `std::io::Error`: an opaque numeric code. -/
abbrev IoError := Nat

/-- Explicit state for the ambient metrics registry used by the
`metrics::increment_counter!` / `metrics::increment_gauge!` calls in io.rs
(compiled with the `metrics` feature enabled). -/
structure Metrics where
  packets_sent : Nat
  bytes_sent : Nat
  packets_received : Nat
  bytes_received : Nat
deriving DecidableEq, Repr

/-- Effect of the two instrumentation calls in `Io::send` (io.rs lines 135-139):
increment the packets-sent counter and add the payload length to the
bytes-sent gauge. -/
def Metrics.record_send (m : Metrics) (len : Nat) : Metrics :=
  { m with packets_sent := m.packets_sent + 1, bytes_sent := m.bytes_sent + len }

/-- Effect of the two instrumentation calls in `Io::recv` (io.rs lines 121-125):
increment the packets-received counter and add the buffer length to the
bytes-received gauge. -/
def Metrics.record_recv (m : Metrics) (len : Nat) : Metrics :=
  { m with packets_received := m.packets_received + 1, bytes_received := m.bytes_received + len }

/-- Modelled from the spec: `LinkConditionerConfig` lives in
transport/conditioner.rs, which is outside the provided sources. The spec
describes it as pure configuration (simulated latency, jitter, drop
probability, duplication probability) with no runtime state; the fields are
opaque to every claim here. -/
structure LinkConditionerConfig where
  incoming_latency : Nat
  incoming_jitter : Nat
  incoming_loss : Nat
deriving DecidableEq, Repr

/-- io.rs lines 21-25: which backend `Io` constructs. -/
inductive TransportConfig where
  | UdpSocket (addr : SocketAddr)
  | LocalChannel
deriving DecidableEq, Repr

/-- io.rs lines 27-31. -/
structure IoConfig where
  transport : TransportConfig
  conditioner : Option LinkConditionerConfig
deriving DecidableEq, Repr

/-- io.rs lines 33-40: `Default for IoConfig`. -/
def IoConfig.default : IoConfig :=
  { transport := TransportConfig.UdpSocket { ip := [127, 0, 0, 1], port := 0 }
    conditioner := none }

/-- io.rs lines 43-48. -/
def IoConfig.from_transport (transport : TransportConfig) : IoConfig :=
  { transport := transport, conditioner := none }

/-- io.rs lines 49-52. -/
def IoConfig.with_conditioner (c : IoConfig) (conditioner_config : LinkConditionerConfig) : IoConfig :=
  { c with conditioner := some conditioner_config }

/-- Modelled from the spec: the UDP backend (transport/udp.rs is outside the
provided sources). `Io::from_config` observes only its reported bound local
address; cloning shares the same endpoint, so a clone is the same value. -/
structure UdpSocket where
  local_addr : SocketAddr
deriving DecidableEq, Repr

/-- Modelled from the spec: the in-process loopback backend (transport/local.rs
is outside the provided sources). Its construction cannot fail and it is bound
to a synthetic local address. -/
structure LocalChannel where
  local_addr : SocketAddr
deriving DecidableEq, Repr

/-- The environment `Io::from_config` runs against: `UdpSocket::new(addr)` may
fail with an io error (bind failure decided by the OS), `LocalChannel::new()`
always succeeds. Modelled from the spec since the backend sources are not in
the excerpt. -/
structure NetEnv where
  udpNew : SocketAddr → Except IoError UdpSocket
  localChannelNew : LocalChannel

/-- Symbolic value of the boxed sender built by `Io::from_config`: either
`Box::new(socket.clone())` or `Box::new(channel.clone())`. There is no
conditioned form: io.rs never wraps the sender. -/
inductive PacketSenderRepr where
  | udp (socket : UdpSocket)
  | localCh (channel : LocalChannel)
deriving DecidableEq, Repr

/-- Symbolic value of the boxed receiver built by `Io::from_config`: the bare
backend, or `ConditionedPacketReceiver::new(backend, conditioner)` wrapping it
(conditioner.rs is outside the sources; the wrapper constructor is modelled
from the spec as a decorator holding the inner receiver and the config). -/
inductive PacketReceiverRepr where
  | udp (socket : UdpSocket)
  | localCh (channel : LocalChannel)
  | conditioned (inner : PacketReceiverRepr) (config : LinkConditionerConfig)
deriving DecidableEq, Repr

/-- Whether a receiver is wrapped in a `ConditionedPacketReceiver`. -/
def PacketReceiverRepr.isConditioned : PacketReceiverRepr → Bool
  | PacketReceiverRepr.conditioned _ _ => true
  | _ => false

/-- io.rs lines 15-19: `Io` owns a local address, a boxed sender and a boxed
receiver. The trait-object payloads are type parameters `S`, `R`. -/
structure Io (S R : Type) where
  local_addr : SocketAddr
  sender : S
  receiver : R
deriving DecidableEq, Repr

/-- io.rs lines 86-96: `Io::new`. -/
def Io.new {S R : Type} (local_addr : SocketAddr) (sender : S) (receiver : R) : Io S R :=
  { local_addr := local_addr, sender := sender, receiver := receiver }

/-- io.rs lines 56-84: `Io::from_config`. The `?` on `UdpSocket::new(addr)`
propagates the bind error; the receiver is wrapped in a conditioner exactly
when `config.conditioner` is `Some`; the sender is the bare backend clone. -/
def Io.from_config (env : NetEnv) (config : IoConfig) :
    Except IoError (Io PacketSenderRepr PacketReceiverRepr) :=
  match config.transport with
  | TransportConfig.UdpSocket addr =>
    match env.udpNew addr with
    | Except.error e => Except.error e
    | Except.ok socket =>
      let local_addr := socket.local_addr
      let sender := PacketSenderRepr.udp socket
      let receiver :=
        match config.conditioner with
        | some conditioner =>
            PacketReceiverRepr.conditioned (PacketReceiverRepr.udp socket) conditioner
        | none => PacketReceiverRepr.udp socket
      Except.ok (Io.new local_addr sender receiver)
  | TransportConfig.LocalChannel =>
    let channel := env.localChannelNew
    let local_addr := channel.local_addr
    let sender := PacketSenderRepr.localCh channel
    let receiver :=
      match config.conditioner with
      | some conditioner =>
          PacketReceiverRepr.conditioned (PacketReceiverRepr.localCh channel) conditioner
      | none => PacketReceiverRepr.localCh channel
    Except.ok (Io.new local_addr sender receiver)

/-- io.rs lines 98-105: `Io::split` hands out the sender and receiver fields
(mutable borrows in rust; here the pair of current values, mutation through
them being an update of the corresponding field). -/
def Io.split {S R : Type} (io : Io S R) : S × R :=
  (io.sender, io.receiver)

/-- io.rs lines 132-142: `Io::send`. `impl` is the vtable `send` of the boxed
inner sender, returning the rust result together with its mutated state. The
metrics are incremented before the call to the inner sender, unconditionally. -/
def Io.send {S R : Type} (impl : S → List Nat → SocketAddr → Except IoError Unit × S)
    (io : Io S R) (m : Metrics) (payload : List Nat) (address : SocketAddr) :
    Except IoError Unit × Io S R × Metrics :=
  let m' := m.record_send payload.length
  let step := impl io.sender payload address
  (step.1, { io with sender := step.2 }, m')

/-- io.rs lines 114-130: `Io::recv`. The inner result is returned unchanged
(`Result::map` with a closure returning `x`); the metrics are incremented
inside the closure only when the result is `Ok(Some((buffer, _)))`. -/
def Io.recv {S R : Type} (impl : R → Except IoError (Option (List Nat × SocketAddr)) × R)
    (io : Io S R) (m : Metrics) :
    Except IoError (Option (List Nat × SocketAddr)) × Io S R × Metrics :=
  let step := impl io.receiver
  let m' :=
    match step.1 with
    | Except.ok (some (buffer, _)) => m.record_recv buffer.length
    | _ => m
  (step.1, { io with receiver := step.2 }, m')

/-- client/config.rs lines 12-17: config for the netcode protocol. The rust
field `keepalive_packet_send_rate` is an f64; the values the claims touch
(decimal literals and `1.0 / 10.0`, whose f64 roundings coincide) are modelled
exactly as rationals. -/
structure NetcodeConfig where
  num_disconnect_packets : Nat
  keepalive_packet_send_rate : Rat
deriving DecidableEq, Repr

/-- client/config.rs lines 19-26: `Default for NetcodeConfig`. -/
def NetcodeConfig.default : NetcodeConfig :=
  { num_disconnect_packets := 10
    keepalive_packet_send_rate := 1 / 10 }

/-- Modelled from the spec: `crate::netcode::ClientConfig` is outside the
provided sources. The claims only observe the two builder methods
`num_disconnect_packets` and `packet_send_rate` that `NetcodeConfig::build`
calls, so only those two fields are modelled; the (unknown) values of
`ClientConfig::default()` are a parameter of `NetcodeConfig.build`. -/
structure NetcodeClientConfig where
  num_disconnect_packets : Nat
  packet_send_rate : Rat
deriving DecidableEq, Repr

/-- Builder method `ClientConfig::num_disconnect_packets` (modelled from the
spec: sets the disconnect-packet count). -/
def NetcodeClientConfig.set_num_disconnect_packets
    (c : NetcodeClientConfig) (n : Nat) : NetcodeClientConfig :=
  { c with num_disconnect_packets := n }

/-- Builder method `ClientConfig::packet_send_rate` (modelled from the spec:
sets the packet send rate). -/
def NetcodeClientConfig.set_packet_send_rate
    (c : NetcodeClientConfig) (r : Rat) : NetcodeClientConfig :=
  { c with packet_send_rate := r }

/-- client/config.rs lines 28-34: `NetcodeConfig::build` starts from
`ClientConfig::default()` (here the parameter `d`) and chains the two builder
calls with the configured values. -/
def NetcodeConfig.build (d : NetcodeClientConfig) (c : NetcodeConfig) : NetcodeClientConfig :=
  (d.set_num_disconnect_packets c.num_disconnect_packets).set_packet_send_rate
    c.keepalive_packet_send_rate

/-- `std::time::Duration`, represented by its total nanoseconds. -/
structure Duration where
  nanos : Nat
deriving DecidableEq, Repr

/-- `Duration::from_millis`. -/
def Duration.from_millis (millis : Nat) : Duration :=
  { nanos := millis * 1000000 }

/-- client/config.rs lines 36-41. -/
structure PacketConfig where
  packet_send_interval : Duration
deriving DecidableEq, Repr

/-- client/config.rs lines 43-49: `Default for PacketConfig`. -/
def PacketConfig.default : PacketConfig :=
  { packet_send_interval := Duration.from_millis 100 }

/-- client/config.rs lines 51-56. -/
def PacketConfig.with_packet_send_interval (c : PacketConfig) (packet_send_interval : Duration) :
    PacketConfig :=
  { c with packet_send_interval := packet_send_interval }

/-- server/plugin.rs lines 26-29: `PluginConfig` pairs a server config with a
protocol. `ServerConfig` and the protocol are opaque to the claim, so both are
type parameters. -/
structure PluginConfig (C P : Type) where
  server_config : C
  protocol : P

/-- server/plugin.rs lines 32-39. -/
def PluginConfig.new {C P : Type} (server_config : C) (protocol : P) : PluginConfig C P :=
  { server_config := server_config, protocol := protocol }

/-- server/plugin.rs lines 41-45: the plugin holds `Mutex<Option<PluginConfig>>`
so that `build(&self)` can take ownership of the inner value. The mutex only
guards the option; the plugin state is the option itself. -/
structure ServerPlugin (C P : Type) where
  config : Option (PluginConfig C P)

/-- server/plugin.rs lines 47-53: `ServerPlugin::new`. -/
def ServerPlugin.new {C P : Type} (config : PluginConfig C P) : ServerPlugin C P :=
  { config := some config }

/-- The `Server` resource as far as `build` constructs it: server/plugin.rs
line 58 calls `Server::new(config.server_config.clone(), config.protocol)`
(Server's own sources are outside the excerpt; the model records the
arguments, a clone being the same value). -/
structure Server (C P : Type) where
  server_config : C
  protocol : P

/-- `Server::new` as observed at server/plugin.rs line 58. -/
def Server.new {C P : Type} (server_config : C) (protocol : P) : Server C P :=
  { server_config := server_config, protocol := protocol }

/-- server/plugin.rs lines 56-112: `ServerPlugin::build`. Line 57 is
`self.config.lock().unwrap().deref_mut().take().unwrap()`: `take()` empties the
option, and the final `unwrap()` panics when the option was already empty.
`none` models the panic; on success the result is the constructed `Server`
together with the plugin state after the take (the app registrations on lines
60-111 do not touch the plugin and are outside every claim). -/
def ServerPlugin.build {C P : Type} (p : ServerPlugin C P) :
    Option (Server C P × ServerPlugin C P) :=
  match p.config with
  | none => none
  | some config =>
    some (Server.new config.server_config config.protocol, { config := none })

/-- Concrete address used by the closed witness and counterexample theorems. -/
def addr0 : SocketAddr :=
  { ip := [127, 0, 0, 1], port := 4000 }

/-- Concrete metrics state with all counters zero. -/
def m0 : Metrics :=
  { packets_sent := 0, bytes_sent := 0, packets_received := 0, bytes_received := 0 }

/-- Concrete environment where binding succeeds at every address. -/
def env0 : NetEnv :=
  { udpNew := fun a => Except.ok { local_addr := a }
    localChannelNew := { local_addr := { ip := [0, 0, 0, 0], port := 0 } } }

/-- Concrete environment where `UdpSocket::new` fails with error code 3. -/
def envFail : NetEnv :=
  { udpNew := fun _ => Except.error 3
    localChannelNew := { local_addr := { ip := [0, 0, 0, 0], port := 0 } } }

/-- Concrete conditioner config for witnesses. -/
def cond0 : LinkConditionerConfig :=
  { incoming_latency := 20, incoming_jitter := 5, incoming_loss := 1 }

/-- An inner sender whose `send` always fails with error code 7. -/
def failSendImpl : Unit → List Nat → SocketAddr → Except IoError Unit × Unit :=
  fun s _ _ => (Except.error 7, s)

/-- An inner receiver that yields the packet `[5, 6]` from `addr0`. -/
def okRecvImpl : Unit → Except IoError (Option (List Nat × SocketAddr)) × Unit :=
  fun s => (Except.ok (some ([5, 6], addr0)), s)

/-- A concrete `Io` over trivial trait-object states. -/
def io0 : Io Unit Unit :=
  Io.new addr0 () ()

/-- C7: `NetcodeConfig::default()` yields `num_disconnect_packets = 10` and
`keepalive_packet_send_rate = 0.1` (one keepalive per 10 seconds; the source
writes `1.0 / 10.0`, the same value), and `NetcodeConfig::build` passes exactly
these two configured values, unmodified, into the netcode client configuration
whatever the client-config defaults `d` are. -/
theorem netcode_config_default_and_build :
    NetcodeConfig.default.num_disconnect_packets = 10 ∧
    NetcodeConfig.default.keepalive_packet_send_rate = 0.1 ∧
    ∀ (d : NetcodeClientConfig) (c : NetcodeConfig),
      (NetcodeConfig.build d c).num_disconnect_packets = c.num_disconnect_packets ∧
      (NetcodeConfig.build d c).packet_send_rate = c.keepalive_packet_send_rate := by
  refine ⟨rfl, ?_, fun d c => ⟨rfl, rfl⟩⟩
  norm_num [NetcodeConfig.default]

/-- C8: `IoConfig::default()` is a UdpSocket transport at 127.0.0.1 port 0 with
no conditioner; `from_transport t` keeps `t` with no conditioner; and
`with_conditioner c` sets the conditioner to `some c`, leaves the transport
unchanged, and a second call overwrites the first conditioner. -/
theorem io_config_builders :
    IoConfig.default =
      { transport := TransportConfig.UdpSocket { ip := [127, 0, 0, 1], port := 0 }
        conditioner := none } ∧
    (∀ t, IoConfig.from_transport t = { transport := t, conditioner := none }) ∧
    (∀ cfg c, (IoConfig.with_conditioner cfg c).conditioner = some c ∧
      (IoConfig.with_conditioner cfg c).transport = cfg.transport) ∧
    (∀ cfg c1 c2,
      IoConfig.with_conditioner (IoConfig.with_conditioner cfg c1) c2 =
        IoConfig.with_conditioner cfg c2) :=
  ⟨rfl, fun _ => rfl, fun _ _ => ⟨rfl, rfl⟩, fun _ _ _ => rfl⟩

/-- C9: `PacketConfig::default()` has a packet send interval of 100
milliseconds exactly (100000000 nanoseconds), and
`with_packet_send_interval d` replaces it with exactly `d`. -/
theorem packet_config_default_and_setter :
    PacketConfig.default.packet_send_interval = Duration.from_millis 100 ∧
    (Duration.from_millis 100).nanos = 100000000 ∧
    ∀ cfg d, (PacketConfig.with_packet_send_interval cfg d).packet_send_interval = d :=
  ⟨rfl, rfl, fun _ _ => rfl⟩

/-- C10: `ServerPlugin::build` consumes the plugin config: on a freshly built
plugin it succeeds, constructing the `Server` from the stored config and
leaving the option emptied, and a second `build` on the emptied state panics
(modelled as `none`) instead of constructing a second `Server`. -/
theorem server_plugin_build_consumes_config (C P : Type) (c : PluginConfig C P) :
    ServerPlugin.build (ServerPlugin.new c) =
      some (Server.new c.server_config c.protocol, { config := none }) ∧
    ServerPlugin.build ({ config := none } : ServerPlugin C P) = none :=
  ⟨rfl, rfl⟩

/-- C1 counterexample: with an inner sender that fails (error code 7), a call
to `Io::send` on the payload `[1, 2, 3]` returns the error, yet the metrics
counters are NOT unchanged — `packets_sent` went from 0 to 1 and `bytes_sent`
from 0 to 3, because io.rs increments them before calling the inner sender.
This refutes the claim that on an inner-sender error the counters are
unchanged. -/
theorem io_send_error_still_counts_cex :
    (Io.send failSendImpl io0 m0 [1, 2, 3] addr0).1 = Except.error 7 ∧
    (Io.send failSendImpl io0 m0 [1, 2, 3] addr0).2.2 ≠ m0 ∧
    (Io.send failSendImpl io0 m0 [1, 2, 3] addr0).2.2.packets_sent = 1 ∧
    (Io.send failSendImpl io0 m0 [1, 2, 3] addr0).2.2.bytes_sent = 3 := by
  refine ⟨rfl, ?_, rfl, rfl⟩
  decide

/-- C1 (amended): `Io::send` forwards the call to the inner sender and returns
its result unchanged, and increments the packets-sent/bytes-sent counters
unconditionally, before the forwarding — the same increment happens whether
the inner sender succeeds or fails (and is a no-op when the metrics feature is
disabled). The receiver and local address are untouched. -/
theorem io_send_forwards_and_counts (S R : Type)
    (impl : S → List Nat → SocketAddr → Except IoError Unit × S)
    (io : Io S R) (m : Metrics) (payload : List Nat) (address : SocketAddr) :
    (Io.send impl io m payload address).1 = (impl io.sender payload address).1 ∧
    (Io.send impl io m payload address).2.1 =
      { io with sender := (impl io.sender payload address).2 } ∧
    (Io.send impl io m payload address).2.2 = m.record_send payload.length :=
  ⟨rfl, rfl, rfl⟩

/-- C3: `Io::recv` returns exactly the inner receiver's result, unchanged, and
increments the packets-received/bytes-received counters exactly when that
result is `Ok(Some((buffer, address)))`; on `Ok(None)` and on error the
metrics are unchanged. The sender and local address are untouched. -/
theorem io_recv_forwards_and_counts (S R : Type)
    (impl : R → Except IoError (Option (List Nat × SocketAddr)) × R)
    (io : Io S R) (m : Metrics) :
    (Io.recv impl io m).1 = (impl io.receiver).1 ∧
    (Io.recv impl io m).2.1 = { io with receiver := (impl io.receiver).2 } ∧
    (∀ buffer address, (impl io.receiver).1 = Except.ok (some (buffer, address)) →
      (Io.recv impl io m).2.2 = m.record_recv buffer.length) ∧
    ((impl io.receiver).1 = Except.ok none → (Io.recv impl io m).2.2 = m) ∧
    (∀ e, (impl io.receiver).1 = Except.error e → (Io.recv impl io m).2.2 = m) := by
  refine ⟨rfl, rfl, ?_, ?_, ?_⟩
  · intro buffer address h
    simp [Io.recv, h]
  · intro h
    simp [Io.recv, h]
  · intro e h
    simp [Io.recv, h]

/-- C3 witness: with a concrete inner receiver yielding `[5, 6]` from `addr0`,
`Io::recv` returns that packet and records one received packet of 2 bytes. -/
theorem io_recv_forwards_and_counts_witness :
    (Io.recv okRecvImpl io0 m0).1 = Except.ok (some ([5, 6], addr0)) ∧
    (Io.recv okRecvImpl io0 m0).2.2 = m0.record_recv 2 := by
  refine ⟨(io_recv_forwards_and_counts Unit Unit okRecvImpl io0 m0).1, ?_⟩
  have h := (io_recv_forwards_and_counts Unit Unit okRecvImpl io0 m0).2.2.1 [5, 6] addr0 rfl
  simpa using h

/-- C6: `Io::split` returns exactly the sender and receiver the `Io` owns,
changing no field; driving the returned halves directly (through the boxed
trait-object delegations of io.rs lines 144-154) yields the same results and
the same half-state evolution as `Io::send`/`Io::recv`, which additionally
only touch the metrics; and neither operation moves ownership: the other half
and the local address are left unchanged. -/
theorem io_split_halves_match (S R : Type)
    (sendImpl : S → List Nat → SocketAddr → Except IoError Unit × S)
    (recvImpl : R → Except IoError (Option (List Nat × SocketAddr)) × R)
    (io : Io S R) (m : Metrics) (payload : List Nat) (address : SocketAddr) :
    Io.split io = (io.sender, io.receiver) ∧
    (Io.send sendImpl io m payload address).1 =
      (sendImpl (Io.split io).1 payload address).1 ∧
    (Io.send sendImpl io m payload address).2.1.sender =
      (sendImpl (Io.split io).1 payload address).2 ∧
    (Io.recv recvImpl io m).1 = (recvImpl (Io.split io).2).1 ∧
    (Io.recv recvImpl io m).2.1.receiver = (recvImpl (Io.split io).2).2 ∧
    (Io.send sendImpl io m payload address).2.1.local_addr = io.local_addr ∧
    (Io.send sendImpl io m payload address).2.1.receiver = io.receiver ∧
    (Io.recv recvImpl io m).2.1.local_addr = io.local_addr ∧
    (Io.recv recvImpl io m).2.1.sender = io.sender :=
  ⟨rfl, rfl, rfl, rfl, rfl, rfl, rfl, rfl, rfl⟩

/-- C2: when `Io::from_config` succeeds, the receiver is wrapped in a
`ConditionedPacketReceiver` exactly when the config's conditioner is `Some`
(the wrapper holding the bare backend receiver and that conditioner), and the
sender is never wrapped: it is exactly the sender the same config without a
conditioner produces, for both transports. -/
theorem from_config_conditions_receiver_only
    (env : NetEnv) (config : IoConfig) (io : Io PacketSenderRepr PacketReceiverRepr)
    (h : Io.from_config env config = Except.ok io) :
    ∃ bare : Io PacketSenderRepr PacketReceiverRepr,
      Io.from_config env { config with conditioner := none } = Except.ok bare ∧
      io.sender = bare.sender ∧
      io.local_addr = bare.local_addr ∧
      io.receiver.isConditioned = config.conditioner.isSome ∧
      (∀ c, config.conditioner = some c →
        io.receiver = PacketReceiverRepr.conditioned bare.receiver c) ∧
      (config.conditioner = none → io.receiver = bare.receiver) := by
  obtain ⟨transport, conditioner⟩ := config
  cases transport with
  | UdpSocket addr =>
    cases hu : env.udpNew addr with
    | error e => simp [Io.from_config, hu] at h
    | ok socket =>
      refine ⟨Io.new socket.local_addr (PacketSenderRepr.udp socket)
        (PacketReceiverRepr.udp socket), by simp [Io.from_config, hu], ?_⟩
      cases conditioner with
      | none =>
        simp [Io.from_config, hu, Io.new] at h
        subst h
        exact ⟨rfl, rfl, rfl, (by intro c hc; cases hc), fun _ => rfl⟩
      | some c0 =>
        simp [Io.from_config, hu, Io.new] at h
        subst h
        refine ⟨rfl, rfl, rfl, ?_, by intro hc; cases hc⟩
        intro c hc
        cases hc
        rfl
  | LocalChannel =>
    refine ⟨Io.new env.localChannelNew.local_addr
      (PacketSenderRepr.localCh env.localChannelNew)
      (PacketReceiverRepr.localCh env.localChannelNew), by simp [Io.from_config], ?_⟩
    cases conditioner with
    | none =>
      simp [Io.from_config, Io.new] at h
      subst h
      exact ⟨rfl, rfl, rfl, (by intro c hc; cases hc), fun _ => rfl⟩
    | some c0 =>
      simp [Io.from_config, Io.new] at h
      subst h
      refine ⟨rfl, rfl, rfl, ?_, by intro hc; cases hc⟩
      intro c hc
      cases hc
      rfl

/-- A concrete config with a conditioner, and the `Io` it produces under
`env0`. -/
def cfgC : IoConfig :=
  { transport := TransportConfig.UdpSocket addr0, conditioner := some cond0 }

/-- The `Io` produced by `Io.from_config env0 cfgC`. -/
def ioC : Io PacketSenderRepr PacketReceiverRepr :=
  Io.new addr0 (PacketSenderRepr.udp { local_addr := addr0 })
    (PacketReceiverRepr.conditioned (PacketReceiverRepr.udp { local_addr := addr0 }) cond0)

/-- C2 witness: at the concrete environment `env0` and config `cfgC` (UDP at
`addr0` with conditioner `cond0`), which succeeds producing `ioC`, the
conclusion of the theorem holds. -/
theorem from_config_conditions_receiver_only_witness :
    Io.from_config env0 cfgC = Except.ok ioC ∧
    ∃ bare : Io PacketSenderRepr PacketReceiverRepr,
      Io.from_config env0 { cfgC with conditioner := none } = Except.ok bare ∧
      ioC.sender = bare.sender ∧
      ioC.local_addr = bare.local_addr ∧
      ioC.receiver.isConditioned = cfgC.conditioner.isSome ∧
      (∀ c, cfgC.conditioner = some c →
        ioC.receiver = PacketReceiverRepr.conditioned bare.receiver c) ∧
      (cfgC.conditioner = none → ioC.receiver = bare.receiver) :=
  ⟨rfl, from_config_conditions_receiver_only env0 cfgC ioC rfl⟩

/-- C4: `Io::from_config` returns an error exactly when the UDP backend fails
to bind: with `TransportConfig::UdpSocket(addr)` it returns `Err e` if and
only if `UdpSocket::new(addr)` fails with `e` (the bind error surfaced
unchanged), and with `TransportConfig::LocalChannel` it always returns `Ok` —
in every case for any conditioner setting. -/
theorem from_config_error_iff_bind_error (env : NetEnv) :
    (∀ addr conditioner e, env.udpNew addr = Except.error e →
      Io.from_config env { transport := TransportConfig.UdpSocket addr, conditioner := conditioner } = Except.error e) ∧
    (∀ addr conditioner e,
      Io.from_config env { transport := TransportConfig.UdpSocket addr, conditioner := conditioner } = Except.error e →
      env.udpNew addr = Except.error e) ∧
    (∀ addr conditioner socket, env.udpNew addr = Except.ok socket →
      ∃ io, Io.from_config env { transport := TransportConfig.UdpSocket addr, conditioner := conditioner } = Except.ok io) ∧
    (∀ conditioner, ∃ io, Io.from_config env
      { transport := TransportConfig.LocalChannel, conditioner := conditioner } =
        Except.ok io) := by
  refine ⟨?_, ?_, ?_, ?_⟩
  · intro addr conditioner e he
    simp [Io.from_config, he]
  · intro addr conditioner e h
    cases hu : env.udpNew addr with
    | error e2 =>
      simp only [Io.from_config, hu, Except.error.injEq] at h
      exact congrArg Except.error h
    | ok socket =>
      cases conditioner <;> simp [Io.from_config, hu] at h
  · intro addr conditioner socket hs
    cases conditioner with
    | none =>
      exact ⟨Io.new socket.local_addr (PacketSenderRepr.udp socket)
        (PacketReceiverRepr.udp socket), by simp [Io.from_config, hs]⟩
    | some c =>
      exact ⟨Io.new socket.local_addr (PacketSenderRepr.udp socket)
        (PacketReceiverRepr.conditioned (PacketReceiverRepr.udp socket) c),
        by simp [Io.from_config, hs]⟩
  · intro conditioner
    cases conditioner with
    | none => exact ⟨_, rfl⟩
    | some c => exact ⟨_, rfl⟩

/-- C4 witness: under `envFail` (bind fails with code 3) the UDP config fails
with exactly error 3; under `env0` the same UDP config succeeds; and a
LocalChannel config with a conditioner succeeds. -/
theorem from_config_error_iff_bind_error_witness :
    Io.from_config envFail { transport := TransportConfig.UdpSocket addr0, conditioner := none } = Except.error 3 ∧
    (∃ io, Io.from_config env0 { transport := TransportConfig.UdpSocket addr0, conditioner := none } = Except.ok io) ∧
    (∃ io, Io.from_config env0 { transport := TransportConfig.LocalChannel, conditioner := some cond0 } = Except.ok io) :=
  ⟨(from_config_error_iff_bind_error envFail).1 addr0 none 3 rfl,
   (from_config_error_iff_bind_error env0).2.2.1 addr0 none { local_addr := addr0 } rfl,
   (from_config_error_iff_bind_error env0).2.2.2 (some cond0)⟩

/-- C5: when `Io::from_config` succeeds, the `Io` records exactly the local
address the chosen backend reported at construction (`socket.local_addr()` for
UDP, `channel.local_addr()` for the local channel), and this value is fixed:
no later `send`, `recv` or `split` changes it (nor any other field, in the
case of `split`). -/
theorem from_config_local_addr_fixed
    (env : NetEnv) (config : IoConfig) (io : Io PacketSenderRepr PacketReceiverRepr)
    (h : Io.from_config env config = Except.ok io) :
    (∀ addr, config.transport = TransportConfig.UdpSocket addr →
      ∃ socket, env.udpNew addr = Except.ok socket ∧ io.local_addr = socket.local_addr) ∧
    (config.transport = TransportConfig.LocalChannel →
      io.local_addr = env.localChannelNew.local_addr) ∧
    (∀ impl m payload address,
      ((Io.send impl io m payload address).2.1).local_addr = io.local_addr) ∧
    (∀ impl m, ((Io.recv impl io m).2.1).local_addr = io.local_addr) ∧
    Io.split io = (io.sender, io.receiver) := by
  refine ⟨?_, ?_, fun impl m payload address => rfl, fun impl m => rfl, rfl⟩
  · intro addr haddr
    obtain ⟨transport, conditioner⟩ := config
    cases haddr
    cases hu : env.udpNew addr with
    | error e => simp [Io.from_config, hu] at h
    | ok socket =>
      refine ⟨socket, rfl, ?_⟩
      cases conditioner <;>
        simp [Io.from_config, hu, Io.new] at h <;> rw [← h]
  · intro hlocal
    obtain ⟨transport, conditioner⟩ := config
    cases hlocal
    cases conditioner <;> simp [Io.from_config, Io.new] at h <;> rw [← h]

/-- A concrete LocalChannel config with no conditioner. -/
def cfgL : IoConfig :=
  { transport := TransportConfig.LocalChannel, conditioner := none }

/-- The `Io` produced by `Io.from_config env0 cfgL`. -/
def ioL : Io PacketSenderRepr PacketReceiverRepr :=
  Io.new { ip := [0, 0, 0, 0], port := 0 }
    (PacketSenderRepr.localCh { local_addr := { ip := [0, 0, 0, 0], port := 0 } })
    (PacketReceiverRepr.localCh { local_addr := { ip := [0, 0, 0, 0], port := 0 } })

/-- C5 witness: at the concrete environment `env0` and LocalChannel config
`cfgL`, which succeeds producing `ioL`, the recorded local address is the
channel's, and a concrete send leaves it unchanged. -/
theorem from_config_local_addr_fixed_witness :
    Io.from_config env0 cfgL = Except.ok ioL ∧
    ioL.local_addr = env0.localChannelNew.local_addr ∧
    ((Io.send (fun s _ _ => (Except.ok (), s)) ioL m0 [1] addr0).2.1).local_addr =
      ioL.local_addr :=
  ⟨rfl, (from_config_local_addr_fixed env0 cfgL ioL rfl).2.1 rfl,
   (from_config_local_addr_fixed env0 cfgL ioL rfl).2.2.1
     (fun s _ _ => (Except.ok (), s)) m0 [1] addr0⟩
